import Mathlib

/-!
Verification of the secret-aware connection configuration manager of the
CryoTensor repository.  The definitions below are shallow embeddings of the
TypeScript in `src/lib/components/admin/Settings/Connections.svelte`
(the masking helper, the array-alignment helper, the add/update/delete
handlers for the OpenAI and Ollama provider lists).  Components that the
specification describes but whose code lives outside the sampled sources
(the backend `ConnectionConfigService` URL validation and key-edit
resolution) are modelled from the specification text and are marked as such
in their doc comments.
-/

namespace CryoTensor

/-- Character used by `maskKeyForDisplay` for the hidden part of a key
(the TypeScript uses a repeated `*`). -/
def maskChar : Char := '*'

/-- Shallow embedding of `maskKeyForDisplay` (Connections.svelte lines 64-69)
on the character list of the string.  The TypeScript is:
`if (!key) return ''; const visible = key.slice(-4);
const maskedLength = Math.max(key.length - visible.length, 4);
return '*'.repeat(maskedLength) + visible`.
JavaScript `slice(-4)` takes the last `min 4 length` characters, which on
lists is `drop (length - 4)` with truncated subtraction. -/
def maskKeyChars (key : List Char) : List Char :=
  if key = [] then []
  else
    let visible := key.drop (key.length - 4)
    let maskedLength := max (key.length - visible.length) 4
    List.replicate maskedLength maskChar ++ visible

/-- The string-level masking function of Connections.svelte. -/
def maskKeyForDisplay (key : String) : String :=
  String.mk (maskKeyChars key.data)

/-- The leading run of masking characters in a masked display string. -/
def maskedSegment (s : String) : List Char :=
  s.data.takeWhile (fun c => c == maskChar)

theorem maskKeyChars_eq {key : List Char} (h : key ≠ []) :
    maskKeyChars key =
      List.replicate (max (key.length - min key.length 4) 4) maskChar ++
        key.drop (key.length - 4) := by
  simp only [maskKeyChars, if_neg h, List.length_drop]
  congr 3
  omega

theorem maskKeyChars_of_four_le {key : List Char} (h : 4 ≤ key.length) :
    maskKeyChars key =
      List.replicate (max (key.length - 4) 4) maskChar ++
        key.drop (key.length - 4) := by
  have hne : key ≠ [] := by
    intro e
    subst e
    simp at h
  rw [maskKeyChars_eq hne]
  congr 3
  omega

/-- C2 (amended to non-empty inputs): for every non-empty key, the masked
display is a block of at least four masking characters followed by the last
`min 4 length` characters of the key; for keys of length at least four the
visible suffix has length exactly four; and the output depends only on the
length of the key and its last four characters, so nothing beyond the
trailing four characters is revealed. -/
theorem maskKeyForDisplay_spec (key : String) (h : key ≠ "") :
    (∃ m, 4 ≤ m ∧
      (maskKeyForDisplay key).data =
        List.replicate m maskChar ++ key.data.drop (key.data.length - 4)) ∧
    (4 ≤ key.data.length → (key.data.drop (key.data.length - 4)).length = 4) ∧
    (∀ other : String, other.data.length = key.data.length →
      other.data.drop (other.data.length - 4) = key.data.drop (key.data.length - 4) →
      maskKeyForDisplay other = maskKeyForDisplay key) := by
  have hne : key.data ≠ [] := by
    intro e
    apply h
    cases key with
    | mk d => simp at e; simp [e]
  refine ⟨⟨max (key.data.length - min key.data.length 4) 4, le_max_right _ _, ?_⟩, ?_, ?_⟩
  · show maskKeyChars key.data = _
    exact maskKeyChars_eq hne
  · intro h4
    simp only [List.length_drop]
    omega
  · intro other hlen hsuf
    have hone : other.data ≠ [] := by
      intro e
      rw [e] at hlen
      simp at hlen
      exact hne (List.eq_nil_of_length_eq_zero hlen.symm)
    unfold maskKeyForDisplay
    rw [hlen] at hsuf
    rw [maskKeyChars_eq hone, maskKeyChars_eq hne, hlen, hsuf]

/-- C2 witness: the theorem applied to the concrete key "secret47". -/
theorem maskKeyForDisplay_spec_witness :
    ("secret47" : String) ≠ "" ∧
    maskKeyForDisplay "aaaaet47" = maskKeyForDisplay "secret47" :=
  ⟨by decide,
    (maskKeyForDisplay_spec "secret47" (by decide)).2.2 "aaaaet47" (by decide) (by decide)⟩

/-- C2 counterexample to the claim as stated: on the empty input the code
returns the empty string, whose masked segment has length 0, not at least 4,
so the "regardless of input length" part fails at the empty secret. -/
theorem maskKeyForDisplay_empty_counterexample :
    maskKeyForDisplay "" = "" ∧ ¬ 4 ≤ (maskedSegment (maskKeyForDisplay "")).length := by
  decide

/-- C9 counterexample: masking is not idempotent on the one-character secret
"a": masking once gives "****a" (5 characters), masking that again gives
"*******a" (8 characters). -/
theorem maskKeyForDisplay_not_idem :
    maskKeyForDisplay (maskKeyForDisplay "a") ≠ maskKeyForDisplay "a" := by
  decide

/-- C9 (amended to keys of length at least 4, or empty): masking is
idempotent on such keys: `mask (mask s) = mask s`. -/
theorem maskKeyForDisplay_idem (key : String)
    (h : 4 ≤ key.data.length ∨ key = "") :
    maskKeyForDisplay (maskKeyForDisplay key) = maskKeyForDisplay key := by
  rcases h with h | rfl
  · have hne : key.data ≠ [] := by
      intro e
      rw [e] at h
      simp at h
    unfold maskKeyForDisplay
    show String.mk (maskKeyChars (maskKeyChars key.data)) = _
    congr 1
    rw [maskKeyChars_of_four_le h]
    have hsuf : (key.data.drop (key.data.length - 4)).length = 4 := by
      simp only [List.length_drop]
      omega
    have hlen : (List.replicate (max (key.data.length - 4) 4) maskChar ++
        key.data.drop (key.data.length - 4)).length = max (key.data.length - 4) 4 + 4 := by
      simp only [List.length_append, List.length_replicate, hsuf]
    rw [maskKeyChars_of_four_le (by omega)]
    rw [hlen]
    have hdrop : (List.replicate (max (key.data.length - 4) 4) maskChar ++
        key.data.drop (key.data.length - 4)).drop (max (key.data.length - 4) 4 + 4 - 4) =
        key.data.drop (key.data.length - 4) := by
      have : max (key.data.length - 4) 4 + 4 - 4 =
          (List.replicate (max (key.data.length - 4) 4) maskChar).length := by
        simp
      rw [this, List.drop_left]
    rw [hdrop]
    congr 2
    omega
  · rfl

/-- C9 witness: idempotence at the concrete four-character key "abcd". -/
theorem maskKeyForDisplay_idem_witness :
    (4 ≤ ("abcd" : String).data.length ∨ ("abcd" : String) = "") ∧
    maskKeyForDisplay (maskKeyForDisplay "abcd") = maskKeyForDisplay "abcd" :=
  ⟨Or.inl (by decide), maskKeyForDisplay_idem "abcd" (Or.inl (by decide))⟩

/-- Key descriptor as returned by the backend (type `OpenAIKeyDescriptor`
imported from `$lib/apis/openai`): `has_value`, `masked`, `fingerprint`. -/
structure OpenAIKeyDescriptor where
  has_value : Bool
  masked : String
  fingerprint : Option String
deriving DecidableEq, Repr

/-- Shallow embedding of `defaultKeyDescriptor` (Connections.svelte lines
58-62). -/
def defaultKeyDescriptor : OpenAIKeyDescriptor :=
  { has_value := false, masked := "", fingerprint := none }

/-- Opaque per-connection configuration map (`connection.config`); the
claims only need it as an opaque value, so a key-value list suffices. -/
abbrev ProviderConfig := List (String × String)

/-- The component state of Connections.svelte that the claims are about:
the four parallel OpenAI lists plus the index-keyed config object.
`OPENAI_API_KEY_METADATA` entries are `Option` because the backend response
may contain null entries which `ensureOpenAIArrayLengths` replaces by
`defaultKeyDescriptor`; `OPENAI_API_CONFIGS` is a JavaScript object keyed
by numeric index, modelled as a partial map on `Nat`. -/
structure OpenAIState where
  OPENAI_API_BASE_URLS : List String
  OPENAI_API_KEYS : List String
  OPENAI_API_KEY_KEEP : List Bool
  OPENAI_API_KEY_METADATA : List (Option OpenAIKeyDescriptor)
  OPENAI_API_CONFIGS : Nat → Option ProviderConfig

/-- The truncate-or-pad pattern shared by the `OPENAI_API_KEYS` and
`OPENAI_API_KEY_KEEP` blocks of `ensureOpenAIArrayLengths`: slice the list
down to `n` elements when it is longer, extend it with copies of `d` when
it is shorter, leave it alone when the lengths already agree. -/
def ensureLengthTo {α : Type} (l : List α) (d : α) (n : Nat) : List α :=
  if l.length > n then l.take n
  else if l.length < n then l ++ List.replicate (n - l.length) d
  else l

/-- Shallow embedding of `ensureOpenAIArrayLengths` (Connections.svelte
lines 71-100): each sibling list is truncated to, or padded up to, the
length of `OPENAI_API_BASE_URLS` (`''` / `false` / null as fillers); in the
two non-truncating metadata branches every null entry is replaced by
`defaultKeyDescriptor()`. -/
def ensureOpenAIArrayLengths (st : OpenAIState) : OpenAIState :=
  let n := st.OPENAI_API_BASE_URLS.length
  let keys := ensureLengthTo st.OPENAI_API_KEYS "" n
  let keep := ensureLengthTo st.OPENAI_API_KEY_KEEP false n
  let metadata :=
    if st.OPENAI_API_KEY_METADATA.length > n then st.OPENAI_API_KEY_METADATA.take n
    else if st.OPENAI_API_KEY_METADATA.length < n then
      (st.OPENAI_API_KEY_METADATA ++
          List.replicate (n - st.OPENAI_API_KEY_METADATA.length) none).map
        (fun (item : Option OpenAIKeyDescriptor) => some (item.getD defaultKeyDescriptor))
    else
      st.OPENAI_API_KEY_METADATA.map
        (fun (item : Option OpenAIKeyDescriptor) => some (item.getD defaultKeyDescriptor))
  { st with
    OPENAI_API_KEYS := keys
    OPENAI_API_KEY_KEEP := keep
    OPENAI_API_KEY_METADATA := metadata }

/-- The connection object handed to `addOpenAIConnectionHandler` by the
add-connection modal: url, optional key, stored-key bookkeeping flags and
the per-connection config. -/
structure OpenAIConnectionInput where
  url : String
  key : Option String
  hasStoredKey : Bool
  keyChanged : Bool
  config : ProviderConfig

/-- Shallow embedding of `addOpenAIConnectionHandler` (Connections.svelte
lines 184-206), up to and including its `ensureOpenAIArrayLengths()` call
(the trailing network submit is modelled separately): appends
`connection.url`, `connection.key ?? ''`,
`Boolean(connection.hasStoredKey && !connection.keyChanged)` and a masked
descriptor (default when the key is absent or empty), and writes
`connection.config` at the new index of `OPENAI_API_CONFIGS`. -/
def addOpenAIConnectionHandler (st : OpenAIState) (c : OpenAIConnectionInput) : OpenAIState :=
  let urls := st.OPENAI_API_BASE_URLS ++ [c.url]
  let keys := st.OPENAI_API_KEYS ++ [c.key.getD ""]
  let keep := st.OPENAI_API_KEY_KEEP ++ [c.hasStoredKey && !c.keyChanged]
  let metadata := st.OPENAI_API_KEY_METADATA ++
    [if c.key.getD "" ≠ "" then
        some { masked := maskKeyForDisplay (c.key.getD ""), has_value := true, fingerprint := none }
      else some defaultKeyDescriptor]
  let configs := fun j =>
    if j = urls.length - 1 then some c.config else st.OPENAI_API_CONFIGS j
  ensureOpenAIArrayLengths
    { OPENAI_API_BASE_URLS := urls
      OPENAI_API_KEYS := keys
      OPENAI_API_KEY_KEEP := keep
      OPENAI_API_KEY_METADATA := metadata
      OPENAI_API_CONFIGS := configs }

/-- JavaScript `arr.filter((x, i) => i !== idx)`: keep the elements whose
position differs from `idx`. -/
def filterOutIdx {α : Type} (l : List α) (idx : Nat) : List α :=
  (l.enum.filter (fun p => p.1 != idx)).map Prod.snd

/-- Shallow embedding of the OpenAI connection `onDelete` handler
(Connections.svelte lines 387-405), up to and including its
`ensureOpenAIArrayLengths()` call: each of the four lists is filtered by
index, and the config object is rebuilt with
`newConfig[newIdx] = OPENAI_API_CONFIGS[newIdx < idx ? newIdx : newIdx + 1]`
for every index of the new URL list. -/
def onDeleteOpenAIConnection (st : OpenAIState) (idx : Nat) : OpenAIState :=
  let urls := filterOutIdx st.OPENAI_API_BASE_URLS idx
  let keys := filterOutIdx st.OPENAI_API_KEYS idx
  let keep := filterOutIdx st.OPENAI_API_KEY_KEEP idx
  let metadata := filterOutIdx st.OPENAI_API_KEY_METADATA idx
  let configs := fun j =>
    if j < urls.length then
      (if j < idx then st.OPENAI_API_CONFIGS j else st.OPENAI_API_CONFIGS (j + 1))
    else none
  ensureOpenAIArrayLengths
    { OPENAI_API_BASE_URLS := urls
      OPENAI_API_KEYS := keys
      OPENAI_API_KEY_KEEP := keep
      OPENAI_API_KEY_METADATA := metadata
      OPENAI_API_CONFIGS := configs }

/-- Invariant I1 for the OpenAI provider lists: the three sibling lists
have the same length as `OPENAI_API_BASE_URLS`. -/
def openAIArraysAligned (st : OpenAIState) : Prop :=
  st.OPENAI_API_KEYS.length = st.OPENAI_API_BASE_URLS.length ∧
  st.OPENAI_API_KEY_KEEP.length = st.OPENAI_API_BASE_URLS.length ∧
  st.OPENAI_API_KEY_METADATA.length = st.OPENAI_API_BASE_URLS.length

instance (st : OpenAIState) : Decidable (openAIArraysAligned st) :=
  inferInstanceAs (Decidable (_ ∧ _ ∧ _))

theorem length_ensureLengthTo {α : Type} (l : List α) (d : α) (n : Nat) :
    (ensureLengthTo l d n).length = n := by
  unfold ensureLengthTo
  split <;> (try split) <;>
    (try simp only [List.length_take, List.length_append, List.length_replicate]) <;> omega

theorem ensureLengthTo_getD {α : Type} (l : List α) (d : α) (n i : Nat) (hi : i < n) :
    (ensureLengthTo l d n).getD i d = l.getD i d := by
  unfold ensureLengthTo
  split
  · rw [List.getD_eq_getElem?_getD, List.getElem?_take_of_lt hi, ← List.getD_eq_getElem?_getD]
  split
  · by_cases him : i < l.length
    · rw [List.getD_eq_getElem?_getD, List.getElem?_append_left him,
        ← List.getD_eq_getElem?_getD]
    · push_neg at him
      rw [List.getD_eq_default _ _ him, List.getD_eq_getElem?_getD,
        List.getElem?_append_right (by omega),
        List.getElem?_replicate_of_lt (by omega)]
      rfl
  · rfl

theorem ensureLengthTo_of_length_eq {α : Type} {l : List α} {d : α} {n : Nat}
    (h : l.length = n) : ensureLengthTo l d n = l := by
  unfold ensureLengthTo
  rw [if_neg (by omega), if_neg (by omega)]

theorem ensureOpenAIArrayLengths_aligned (st : OpenAIState) :
    openAIArraysAligned (ensureOpenAIArrayLengths st) := by
  unfold ensureOpenAIArrayLengths openAIArraysAligned
  refine ⟨?_, ?_, ?_⟩ <;> dsimp only
  · exact length_ensureLengthTo _ _ _
  · exact length_ensureLengthTo _ _ _
  · split <;> (try split) <;>
      (try simp only [List.length_take, List.length_append, List.length_replicate,
        List.length_map]) <;> omega

/-- Shallow embedding of `url.replace(/\/$/, '')` (Connections.svelte lines
114 and 155) on the character list: the regular expression removes one
trailing slash when present. -/
def stripTrailingSlashChars (url : List Char) : List Char :=
  if url.getLast? = some '/' then url.dropLast else url

/-- The string-level trailing-slash normalization of the update handlers. -/
def stripTrailingSlash (url : String) : String :=
  String.mk (stripTrailingSlashChars url.data)

/-- One entry of the `OPENAI_API_KEYS` payload built by
`updateOpenAIHandler` (Connections.svelte lines 117-123): either
`{ keep: true }` or `{ value: ... }`. -/
inductive KeyPayload where
  | keep
  | value (v : String)
deriving DecidableEq, Repr

/-- Shallow embedding of the `keyPayloads` construction of
`updateOpenAIHandler` (Connections.svelte lines 117-123):
`OPENAI_API_BASE_URLS.map((_, idx) => OPENAI_API_KEY_KEEP[idx] ?
{ keep: true } : { value: OPENAI_API_KEYS[idx] ?? '' })`; out-of-range
JavaScript indexing yields `undefined`, hence the `getD` defaults. -/
def buildKeyPayloads (st : OpenAIState) : List KeyPayload :=
  (List.range st.OPENAI_API_BASE_URLS.length).map (fun idx =>
    if st.OPENAI_API_KEY_KEEP.getD idx false then KeyPayload.keep
    else KeyPayload.value (st.OPENAI_API_KEYS.getD idx ""))

/-- Shallow embedding of the request-building half of `updateOpenAIHandler`
(Connections.svelte lines 112-129): strip trailing slashes from every base
URL, realign the sibling lists, and build the key payloads from the
realigned state.  Returns the state as submitted together with the
payload list. -/
def updateOpenAIRequest (st : OpenAIState) : OpenAIState × List KeyPayload :=
  let st1 := ensureOpenAIArrayLengths
    { st with OPENAI_API_BASE_URLS := st.OPENAI_API_BASE_URLS.map stripTrailingSlash }
  (st1, buildKeyPayloads st1)

/-- The fields of the backend response that `updateOpenAIHandler` reads
(Connections.svelte lines 134-145).  `OPENAI_API_KEYS` is the descriptor
list (`res.OPENAI_API_KEYS ?? []`, entries possibly null). -/
structure OpenAIConfigResponse where
  OPENAI_API_BASE_URLS : List String
  OPENAI_API_KEYS : Option (List (Option OpenAIKeyDescriptor))
  OPENAI_API_CONFIGS : Nat → Option ProviderConfig

/-- Shallow embedding of the response-handling half of
`updateOpenAIHandler` (Connections.svelte lines 134-145): adopt the
returned URLs, configs and descriptor list, reset every key input to
`''`, recompute each keep-flag as `item?.has_value ?? false`, and realign.
(The security-meta and allowed-URL display variables set on lines 140-144
are separate component variables, not part of the connection lists.) -/
def applyOpenAIResponse (_st : OpenAIState) (res : OpenAIConfigResponse) : OpenAIState :=
  let urls := res.OPENAI_API_BASE_URLS
  let metadata := res.OPENAI_API_KEYS.getD []
  let keys := urls.map (fun _ => "")
  let keep := metadata.map
    (fun (item : Option OpenAIKeyDescriptor) =>
      (item.map OpenAIKeyDescriptor.has_value).getD false)
  ensureOpenAIArrayLengths
    { OPENAI_API_BASE_URLS := urls
      OPENAI_API_KEYS := keys
      OPENAI_API_KEY_KEEP := keep
      OPENAI_API_KEY_METADATA := metadata
      OPENAI_API_CONFIGS := res.OPENAI_API_CONFIGS }

/-- A stored entry of `OLLAMA_API_CONFIGS`: the spread of the submitted
config object, possibly carrying a `key` property. -/
structure OllamaStoredConfig where
  fields : List (String × String)
  key : Option String
deriving DecidableEq, Repr

/-- The Ollama side of the component state: base URLs plus the index-keyed
config object. -/
structure OllamaState where
  OLLAMA_BASE_URLS : List String
  OLLAMA_API_CONFIGS : Nat → Option OllamaStoredConfig

/-- The connection object handed to `addOllamaConnectionHandler`. -/
structure OllamaConnectionInput where
  url : String
  key : Option String
  config : List (String × String)

/-- Shallow embedding of `addOllamaConnectionHandler` (Connections.svelte
lines 208-216), up to its network submit: appends `connection.url` and
writes `{ ...connection.config, key: connection.key }` at the new index of
`OLLAMA_API_CONFIGS` — the spread copies the config fields and the `key`
property is set to the connection's key. -/
def addOllamaConnectionHandler (st : OllamaState) (c : OllamaConnectionInput) : OllamaState :=
  let urls := st.OLLAMA_BASE_URLS ++ [c.url]
  { OLLAMA_BASE_URLS := urls
    OLLAMA_API_CONFIGS := fun j =>
      if j = urls.length - 1 then some { fields := c.config, key := c.key }
      else st.OLLAMA_API_CONFIGS j }

/-- Shallow embedding of the Ollama connection `onDelete` handler
(Connections.svelte lines 470-479): filter the URL list by index and
rebuild the config object with
`newConfig[newIdx] = OLLAMA_API_CONFIGS[newIdx < idx ? newIdx : newIdx + 1]`. -/
def onDeleteOllamaConnection (st : OllamaState) (idx : Nat) : OllamaState :=
  let urls := filterOutIdx st.OLLAMA_BASE_URLS idx
  { OLLAMA_BASE_URLS := urls
    OLLAMA_API_CONFIGS := fun j =>
      if j < urls.length then
        (if j < idx then st.OLLAMA_API_CONFIGS j else st.OLLAMA_API_CONFIGS (j + 1))
      else none }

/-- Shallow embedding of the URL normalization of `updateOllamaHandler`
(Connections.svelte lines 154-156). -/
def updateOllamaNormalize (st : OllamaState) : OllamaState :=
  { st with OLLAMA_BASE_URLS := st.OLLAMA_BASE_URLS.map stripTrailingSlash }

/-- C1: every operation on the OpenAI connection lists leaves the sibling
lists (key inputs, keep-flags, key descriptors) with the same length as
`OPENAI_API_BASE_URLS`: `ensureOpenAIArrayLengths` itself,
`addOpenAIConnectionHandler`, the delete handler, and both halves of the
update round-trip all end aligned, so the alignment invariant holds after
every operation of any sequence of adds, updates and deletes. -/
theorem openAI_alignment_invariant :
    (∀ st : OpenAIState, openAIArraysAligned (ensureOpenAIArrayLengths st)) ∧
    (∀ (st : OpenAIState) (c : OpenAIConnectionInput),
      openAIArraysAligned (addOpenAIConnectionHandler st c)) ∧
    (∀ (st : OpenAIState) (idx : Nat),
      openAIArraysAligned (onDeleteOpenAIConnection st idx)) ∧
    (∀ st : OpenAIState, openAIArraysAligned (updateOpenAIRequest st).1) ∧
    (∀ (st : OpenAIState) (res : OpenAIConfigResponse),
      openAIArraysAligned (applyOpenAIResponse st res)) :=
  ⟨ensureOpenAIArrayLengths_aligned,
    fun _ _ => ensureOpenAIArrayLengths_aligned _,
    fun _ _ => ensureOpenAIArrayLengths_aligned _,
    fun _ => ensureOpenAIArrayLengths_aligned _,
    fun _ _ => ensureOpenAIArrayLengths_aligned _⟩

theorem buildKeyPayloads_getElem {st : OpenAIState} {idx : Nat}
    (h : idx < st.OPENAI_API_BASE_URLS.length) :
    (buildKeyPayloads st)[idx]? =
      some (if st.OPENAI_API_KEY_KEEP.getD idx false then KeyPayload.keep
        else KeyPayload.value (st.OPENAI_API_KEYS.getD idx "")) := by
  unfold buildKeyPayloads
  rw [List.getElem?_map, List.getElem?_range h]
  rfl

/-- C3: if the keep-flag of a connection is set in the state as submitted,
the payload entry sent for that index is exactly `{ keep: true }`, and it
is the same payload whatever the contents of the key-input list: no secret
material crosses the boundary on the keep path. -/
theorem keepFlag_payload_keep (st : OpenAIState) (keys1 keys2 : List String) (idx : Nat)
    (h : (updateOpenAIRequest
        { st with OPENAI_API_KEYS := keys1 }).1.OPENAI_API_KEY_KEEP.getD idx false = true) :
    (updateOpenAIRequest { st with OPENAI_API_KEYS := keys1 }).2[idx]? = some KeyPayload.keep ∧
    (updateOpenAIRequest { st with OPENAI_API_KEYS := keys2 }).2[idx]? = some KeyPayload.keep := by
  have hkeep : (updateOpenAIRequest
      { st with OPENAI_API_KEYS := keys2 }).1.OPENAI_API_KEY_KEEP =
      (updateOpenAIRequest { st with OPENAI_API_KEYS := keys1 }).1.OPENAI_API_KEY_KEEP := rfl
  have halign : openAIArraysAligned (updateOpenAIRequest
      { st with OPENAI_API_KEYS := keys1 }).1 :=
    ensureOpenAIArrayLengths_aligned _
  have hidx : idx < (updateOpenAIRequest
      { st with OPENAI_API_KEYS := keys1 }).1.OPENAI_API_BASE_URLS.length := by
    obtain ⟨h1, h2, h3⟩ := halign
    by_contra hc
    push_neg at hc
    rw [List.getD_eq_default _ _ (by omega)] at h
    · exact Bool.false_ne_true h
  have hidx2 : idx < (updateOpenAIRequest
      { st with OPENAI_API_KEYS := keys2 }).1.OPENAI_API_BASE_URLS.length := hidx
  constructor
  · show (buildKeyPayloads (updateOpenAIRequest
        { st with OPENAI_API_KEYS := keys1 }).1)[idx]? = some KeyPayload.keep
    rw [buildKeyPayloads_getElem hidx, h]
    rfl
  · show (buildKeyPayloads (updateOpenAIRequest
        { st with OPENAI_API_KEYS := keys2 }).1)[idx]? = some KeyPayload.keep
    rw [buildKeyPayloads_getElem hidx2, hkeep, h]
    rfl

/-- A concrete aligned component state used by the witnesses. -/
def sampleOpenAIState : OpenAIState :=
  { OPENAI_API_BASE_URLS := ["https://api.openai.com/v1"]
    OPENAI_API_KEYS := [""]
    OPENAI_API_KEY_KEEP := [true]
    OPENAI_API_KEY_METADATA := [some defaultKeyDescriptor]
    OPENAI_API_CONFIGS := fun _ => none }

/-- C3 witness: with the keep-flag set at index 0, two different key-input
contents produce the same `{ keep: true }` payload entry. -/
theorem keepFlag_payload_keep_witness :
    ((updateOpenAIRequest
        { sampleOpenAIState with
          OPENAI_API_KEYS := ["secretA"] }).1.OPENAI_API_KEY_KEEP.getD 0 false = true) ∧
    (updateOpenAIRequest
        { sampleOpenAIState with OPENAI_API_KEYS := ["secretA"] }).2[0]? =
      some KeyPayload.keep ∧
    (updateOpenAIRequest
        { sampleOpenAIState with OPENAI_API_KEYS := ["secretB"] }).2[0]? =
      some KeyPayload.keep := by
  have h : (updateOpenAIRequest
      { sampleOpenAIState with
        OPENAI_API_KEYS := ["secretA"] }).1.OPENAI_API_KEY_KEEP.getD 0 false = true := by
    decide
  exact ⟨h, keepFlag_payload_keep sampleOpenAIState ["secretA"] ["secretB"] 0 h⟩

/-- C10: after a successful `updateOpenAIHandler` round-trip, no plaintext
key remains in the component state: every entry of `OPENAI_API_KEYS` is the
empty string, and each keep-flag equals the `has_value` field of the
returned key descriptor at the same index (false when the descriptor is
absent or null). -/
theorem applyOpenAIResponse_no_plaintext (st : OpenAIState) (res : OpenAIConfigResponse) :
    (∀ k ∈ (applyOpenAIResponse st res).OPENAI_API_KEYS, k = "") ∧
    (∀ i, i < (applyOpenAIResponse st res).OPENAI_API_BASE_URLS.length →
      (applyOpenAIResponse st res).OPENAI_API_KEY_KEEP.getD i false =
        (((res.OPENAI_API_KEYS.getD [])[i]?.getD none).map
          OpenAIKeyDescriptor.has_value).getD false) := by
  constructor
  · intro k hk
    have hkeys : (applyOpenAIResponse st res).OPENAI_API_KEYS =
        res.OPENAI_API_BASE_URLS.map (fun _ => "") := by
      show ensureLengthTo (res.OPENAI_API_BASE_URLS.map (fun _ => ""))
          "" res.OPENAI_API_BASE_URLS.length = _
      exact ensureLengthTo_of_length_eq (by simp)
    rw [hkeys] at hk
    obtain ⟨x, hx, he⟩ := List.mem_map.mp hk
    exact he.symm
  · intro i hi
    have hn : (applyOpenAIResponse st res).OPENAI_API_BASE_URLS.length =
        res.OPENAI_API_BASE_URLS.length := rfl
    rw [hn] at hi
    have hk : (applyOpenAIResponse st res).OPENAI_API_KEY_KEEP.getD i false =
        ((res.OPENAI_API_KEYS.getD []).map
          (fun (item : Option OpenAIKeyDescriptor) =>
            (item.map OpenAIKeyDescriptor.has_value).getD false)).getD i false := by
      show (ensureLengthTo _ false _).getD i false = _
      exact ensureLengthTo_getD _ _ _ _ hi
    rw [hk, List.getD_eq_getElem?_getD, List.getElem?_map]
    cases hx : (res.OPENAI_API_KEYS.getD [])[i]? with
    | none => rfl
    | some x => rfl

/-- A concrete backend response used by the witnesses; its descriptor list
is shorter than its URL list, so the keep-flag at index 1 comes from the
padding path. -/
def sampleOpenAIResponse : OpenAIConfigResponse :=
  { OPENAI_API_BASE_URLS := ["https://api.openai.com/v1", "https://proxy.example.com/v1"]
    OPENAI_API_KEYS :=
      some [some { has_value := true, masked := "****abcd", fingerprint := none }]
    OPENAI_API_CONFIGS := fun _ => none }

/-- C10 witness: the theorem applied to concrete state and response at
index 0. -/
theorem applyOpenAIResponse_no_plaintext_witness :
    0 < (applyOpenAIResponse sampleOpenAIState
        sampleOpenAIResponse).OPENAI_API_BASE_URLS.length ∧
    (applyOpenAIResponse sampleOpenAIState
        sampleOpenAIResponse).OPENAI_API_KEY_KEEP.getD 0 false =
      (((sampleOpenAIResponse.OPENAI_API_KEYS.getD [])[0]?.getD none).map
        OpenAIKeyDescriptor.has_value).getD false :=
  ⟨by decide,
    (applyOpenAIResponse_no_plaintext sampleOpenAIState sampleOpenAIResponse).2 0 (by decide)⟩

theorem enumFrom_filter_ne_map {α : Type} (l : List α) (n idx : Nat) :
    ((l.enumFrom n).filter (fun p => p.1 != idx)).map Prod.snd =
      if n ≤ idx then l.eraseIdx (idx - n) else l := by
  induction l generalizing n with
  | nil => simp [List.eraseIdx]
  | cons a l ih =>
    show (((n, a) :: l.enumFrom (n + 1)).filter (fun p => p.1 != idx)).map Prod.snd = _
    rw [List.filter_cons]
    by_cases hn : n = idx
    · subst hn
      rw [if_neg (by simp)]
      rw [ih, if_neg (by omega), if_pos (Nat.le_refl n), Nat.sub_self]
      rfl
    · rw [if_pos (by simpa using hn), List.map_cons, ih]
      by_cases hle : n ≤ idx
      · have hlt : n < idx := by omega
        rw [if_pos (by omega), if_pos hle]
        have hs : idx - n = (idx - (n + 1)) + 1 := by omega
        rw [hs]
        rfl
      · rw [if_neg (by omega), if_neg hle]

theorem filterOutIdx_eq_eraseIdx {α : Type} (l : List α) (idx : Nat) :
    filterOutIdx l idx = l.eraseIdx idx := by
  have h := enumFrom_filter_ne_map l 0 idx
  rw [if_pos (Nat.zero_le idx)] at h
  simpa [filterOutIdx, List.enum] using h

theorem getElem?_eraseIdx_of_ge {α : Type} (l : List α) (idx j : Nat)
    (hl : idx ≤ l.length) (hj : idx ≤ j) :
    (l.eraseIdx idx)[j]? = l[j + 1]? := by
  rw [List.eraseIdx_eq_take_drop_succ]
  have hlen : (l.take idx).length = idx := by
    simp only [List.length_take]
    omega
  rw [List.getElem?_append_right (by omega), hlen, List.getElem?_drop]
  congr 1
  omega

theorem getElem?_eraseIdx_of_lt {α : Type} (l : List α) (idx j : Nat) (hj : j < idx) :
    (l.eraseIdx idx)[j]? = l[j]? := by
  rw [List.eraseIdx_eq_take_drop_succ]
  by_cases hl : j < l.length
  · by_cases hi : j < idx ⊓ l.length
    · rw [List.getElem?_append_left (by simp only [List.length_take]; omega),
        List.getElem?_take_of_lt hj]
    · omega
  · push_neg at hl
    rw [List.getElem?_eq_none (by
        simp only [List.length_append, List.length_take, List.length_drop]
        omega),
      List.getElem?_eq_none hl]

theorem map_getD_some {α : Type} (d : α) (l : List (Option α))
    (h : ∀ m ∈ l, m ≠ none) :
    l.map (fun item => some (item.getD d)) = l := by
  induction l with
  | nil => rfl
  | cons a l ih =>
    rw [List.map_cons, ih (fun m hm => h m (List.mem_cons_of_mem _ hm))]
    rcases a with _ | x
    · exact absurd rfl (h none (List.mem_cons_self _ _))
    · rfl

theorem ensureOpenAIArrayLengths_of_aligned (st : OpenAIState)
    (hA : openAIArraysAligned st)
    (hM : ∀ m ∈ st.OPENAI_API_KEY_METADATA, m ≠ none) :
    ensureOpenAIArrayLengths st = st := by
  obtain ⟨h1, h2, h3⟩ := hA
  unfold ensureOpenAIArrayLengths
  dsimp only
  rw [ensureLengthTo_of_length_eq h1, ensureLengthTo_of_length_eq h2,
    if_neg (by omega), if_neg (by omega), map_getD_some _ _ hM]

theorem onDelete_eq (st : OpenAIState) (idx : Nat)
    (hA : openAIArraysAligned st)
    (hM : ∀ m ∈ st.OPENAI_API_KEY_METADATA, m ≠ none)
    (h : idx < st.OPENAI_API_BASE_URLS.length) :
    onDeleteOpenAIConnection st idx =
      { OPENAI_API_BASE_URLS := st.OPENAI_API_BASE_URLS.eraseIdx idx
        OPENAI_API_KEYS := st.OPENAI_API_KEYS.eraseIdx idx
        OPENAI_API_KEY_KEEP := st.OPENAI_API_KEY_KEEP.eraseIdx idx
        OPENAI_API_KEY_METADATA := st.OPENAI_API_KEY_METADATA.eraseIdx idx
        OPENAI_API_CONFIGS := fun j =>
          if j < st.OPENAI_API_BASE_URLS.length - 1 then
            (if j < idx then st.OPENAI_API_CONFIGS j else st.OPENAI_API_CONFIGS (j + 1))
          else none } := by
  obtain ⟨h1, h2, h3⟩ := hA
  unfold onDeleteOpenAIConnection
  dsimp only
  rw [filterOutIdx_eq_eraseIdx, filterOutIdx_eq_eraseIdx, filterOutIdx_eq_eraseIdx,
    filterOutIdx_eq_eraseIdx, List.length_eraseIdx_of_lt h]
  rw [ensureOpenAIArrayLengths_of_aligned _
    ⟨by rw [List.length_eraseIdx_of_lt (by omega), List.length_eraseIdx_of_lt h]; omega,
      by rw [List.length_eraseIdx_of_lt (by omega), List.length_eraseIdx_of_lt h]; omega,
      by rw [List.length_eraseIdx_of_lt (by omega), List.length_eraseIdx_of_lt h]; omega⟩
    (fun m hm => hM m (List.eraseIdx_subset _ _ hm))]

theorem onDeleteOllama_eq (ost : OllamaState) (odx : Nat)
    (ho : odx < ost.OLLAMA_BASE_URLS.length) :
    onDeleteOllamaConnection ost odx =
      { OLLAMA_BASE_URLS := ost.OLLAMA_BASE_URLS.eraseIdx odx
        OLLAMA_API_CONFIGS := fun j =>
          if j < ost.OLLAMA_BASE_URLS.length - 1 then
            (if j < odx then ost.OLLAMA_API_CONFIGS j else ost.OLLAMA_API_CONFIGS (j + 1))
          else none } := by
  unfold onDeleteOllamaConnection
  dsimp only
  rw [filterOutIdx_eq_eraseIdx, List.length_eraseIdx_of_lt ho]

/-- C5: deleting index `idx` from aligned OpenAI connection lists of length
`n` (with all-present descriptors, as every reachable state has) yields
lists of length `n - 1` in which the entries formerly at `idx+1 .. n-1` now
occupy `idx .. n-2` and the entries below `idx` are unchanged, with the
providerConfig value moving together with its connection; the Ollama delete
handler shifts its URL list and config object the same way. -/
theorem onDelete_shifts (st : OpenAIState) (ost : OllamaState) (idx odx : Nat)
    (hA : openAIArraysAligned st)
    (hM : ∀ m ∈ st.OPENAI_API_KEY_METADATA, m ≠ none)
    (h : idx < st.OPENAI_API_BASE_URLS.length)
    (ho : odx < ost.OLLAMA_BASE_URLS.length) :
    ((onDeleteOpenAIConnection st idx).OPENAI_API_BASE_URLS.length =
        st.OPENAI_API_BASE_URLS.length - 1 ∧
      (onDeleteOpenAIConnection st idx).OPENAI_API_KEYS.length =
        st.OPENAI_API_BASE_URLS.length - 1 ∧
      (onDeleteOpenAIConnection st idx).OPENAI_API_KEY_KEEP.length =
        st.OPENAI_API_BASE_URLS.length - 1 ∧
      (onDeleteOpenAIConnection st idx).OPENAI_API_KEY_METADATA.length =
        st.OPENAI_API_BASE_URLS.length - 1) ∧
    (∀ j, idx ≤ j → j + 1 < st.OPENAI_API_BASE_URLS.length →
      (onDeleteOpenAIConnection st idx).OPENAI_API_BASE_URLS[j]? =
          st.OPENAI_API_BASE_URLS[j + 1]? ∧
      (onDeleteOpenAIConnection st idx).OPENAI_API_KEYS[j]? =
          st.OPENAI_API_KEYS[j + 1]? ∧
      (onDeleteOpenAIConnection st idx).OPENAI_API_KEY_KEEP[j]? =
          st.OPENAI_API_KEY_KEEP[j + 1]? ∧
      (onDeleteOpenAIConnection st idx).OPENAI_API_KEY_METADATA[j]? =
          st.OPENAI_API_KEY_METADATA[j + 1]? ∧
      (onDeleteOpenAIConnection st idx).OPENAI_API_CONFIGS j =
          st.OPENAI_API_CONFIGS (j + 1)) ∧
    (∀ j, j < idx →
      (onDeleteOpenAIConnection st idx).OPENAI_API_BASE_URLS[j]? =
          st.OPENAI_API_BASE_URLS[j]? ∧
      (onDeleteOpenAIConnection st idx).OPENAI_API_CONFIGS j =
          st.OPENAI_API_CONFIGS j) ∧
    ((onDeleteOllamaConnection ost odx).OLLAMA_BASE_URLS.length =
        ost.OLLAMA_BASE_URLS.length - 1 ∧
      (∀ j, odx ≤ j → j + 1 < ost.OLLAMA_BASE_URLS.length →
        (onDeleteOllamaConnection ost odx).OLLAMA_BASE_URLS[j]? =
            ost.OLLAMA_BASE_URLS[j + 1]? ∧
        (onDeleteOllamaConnection ost odx).OLLAMA_API_CONFIGS j =
            ost.OLLAMA_API_CONFIGS (j + 1))) := by
  obtain ⟨h1, h2, h3⟩ := hA
  rw [onDelete_eq st idx ⟨h1, h2, h3⟩ hM h, onDeleteOllama_eq ost odx ho]
  refine ⟨⟨?_, ?_, ?_, ?_⟩, ?_, ?_, ?_, ?_⟩
  · rw [List.length_eraseIdx_of_lt h]
  · rw [List.length_eraseIdx_of_lt (by omega)]
    omega
  · rw [List.length_eraseIdx_of_lt (by omega)]
    omega
  · rw [List.length_eraseIdx_of_lt (by omega)]
    omega
  · intro j hj hj1
    refine ⟨getElem?_eraseIdx_of_ge _ _ _ (by omega) hj,
      getElem?_eraseIdx_of_ge _ _ _ (by omega) hj,
      getElem?_eraseIdx_of_ge _ _ _ (by omega) hj,
      getElem?_eraseIdx_of_ge _ _ _ (by omega) hj, ?_⟩
    show (if j < st.OPENAI_API_BASE_URLS.length - 1 then
        (if j < idx then st.OPENAI_API_CONFIGS j else st.OPENAI_API_CONFIGS (j + 1))
      else none) = _
    rw [if_pos (by omega), if_neg (by omega)]
  · intro j hj
    refine ⟨getElem?_eraseIdx_of_lt _ _ _ hj, ?_⟩
    show (if j < st.OPENAI_API_BASE_URLS.length - 1 then
        (if j < idx then st.OPENAI_API_CONFIGS j else st.OPENAI_API_CONFIGS (j + 1))
      else none) = _
    rw [if_pos (by omega), if_pos hj]
  · rw [List.length_eraseIdx_of_lt ho]
  · intro j hj hj1
    refine ⟨getElem?_eraseIdx_of_ge _ _ _ (by omega) hj, ?_⟩
    show (if j < ost.OLLAMA_BASE_URLS.length - 1 then
        (if j < odx then ost.OLLAMA_API_CONFIGS j else ost.OLLAMA_API_CONFIGS (j + 1))
      else none) = _
    rw [if_pos (by omega), if_neg (by omega)]

/-- A concrete three-connection OpenAI state exercising the delete shift. -/
def sampleOpenAIState3 : OpenAIState :=
  { OPENAI_API_BASE_URLS :=
      ["https://a.example/v1", "https://b.example/v1", "https://c.example/v1"]
    OPENAI_API_KEYS := ["", "", ""]
    OPENAI_API_KEY_KEEP := [true, false, true]
    OPENAI_API_KEY_METADATA :=
      [some defaultKeyDescriptor,
        some { has_value := true, masked := "****bbbb", fingerprint := none },
        some { has_value := true, masked := "****cccc", fingerprint := none }]
    OPENAI_API_CONFIGS := fun j =>
      if j = 0 then some [("enable", "true")]
      else if j = 1 then some [("enable", "false")]
      else if j = 2 then some [("tag", "c")] else none }

/-- A concrete two-connection Ollama state used by the witnesses. -/
def sampleOllamaState : OllamaState :=
  { OLLAMA_BASE_URLS := ["http://localhost:11434", "http://gpu.example:11434"]
    OLLAMA_API_CONFIGS := fun j =>
      if j = 0 then some { fields := [("enable", "true")], key := none }
      else if j = 1 then some { fields := [], key := some "ok1" } else none }

/-- C5 witness: deleting index 1 of the three-connection state moves the
former index-2 URL and its config down to index 1. -/
theorem onDelete_shifts_witness :
    openAIArraysAligned sampleOpenAIState3 ∧
    1 < sampleOpenAIState3.OPENAI_API_BASE_URLS.length ∧
    (onDeleteOpenAIConnection sampleOpenAIState3 1).OPENAI_API_BASE_URLS[1]? =
      sampleOpenAIState3.OPENAI_API_BASE_URLS[2]? ∧
    (onDeleteOpenAIConnection sampleOpenAIState3 1).OPENAI_API_CONFIGS 1 =
      sampleOpenAIState3.OPENAI_API_CONFIGS 2 := by
  refine ⟨by decide, by decide, ?_, ?_⟩
  · exact ((onDelete_shifts sampleOpenAIState3 sampleOllamaState 1 0 (by decide)
      (by decide) (by decide) (by decide)).2.1 1 (by decide) (by decide)).1
  · exact ((onDelete_shifts sampleOpenAIState3 sampleOllamaState 1 0 (by decide)
      (by decide) (by decide) (by decide)).2.1 1 (by decide) (by decide)).2.2.2.2

/-- C8 counterexample: `addOllamaConnectionHandler` writes the connection's
key verbatim into `OLLAMA_API_CONFIGS` at the new index — at this concrete
input the stored config object carries `key: "sk-secret"`. -/
theorem addOllama_key_in_config_counterexample :
    ((addOllamaConnectionHandler sampleOllamaState
        { url := "http://new.example:11434", key := some "sk-secret",
          config := [("enable", "true")] }).OLLAMA_API_CONFIGS 2).map
      OllamaStoredConfig.key = some (some "sk-secret") := by
  decide

/-- C8 (amended): the OpenAI path keeps secrets out of the per-connection
config map — the `OPENAI_API_CONFIGS` produced by
`addOpenAIConnectionHandler` is the same whatever key is submitted — but
the Ollama add handler does place the connection's key inside
`OLLAMA_API_CONFIGS` at the new index, alongside the config fields. -/
theorem providerConfig_secret_handling :
    (∀ (st : OpenAIState) (c : OpenAIConnectionInput) (k1 k2 : Option String) (j : Nat),
      (addOpenAIConnectionHandler st { c with key := k1 }).OPENAI_API_CONFIGS j =
        (addOpenAIConnectionHandler st { c with key := k2 }).OPENAI_API_CONFIGS j) ∧
    (∀ (ost : OllamaState) (c : OllamaConnectionInput),
      (addOllamaConnectionHandler ost c).OLLAMA_API_CONFIGS ost.OLLAMA_BASE_URLS.length =
        some { fields := c.config, key := c.key }) := by
  constructor
  · intro st c k1 k2 j
    rfl
  · intro ost c
    show (if ost.OLLAMA_BASE_URLS.length = (ost.OLLAMA_BASE_URLS ++ [c.url]).length - 1
        then some { fields := c.config, key := c.key }
        else ost.OLLAMA_API_CONFIGS ost.OLLAMA_BASE_URLS.length) = _
    rw [if_pos (by simp)]

/-- Error taxonomy of the connection configuration service (spec section 7). -/
inductive ConfigError where
  | UrlNotAllowed
  | InvalidKeyEdit
  | IndexOutOfRange
  | DecryptionError
  | MisalignedListsError
deriving DecidableEq, Repr

/-- Modelled from the spec: the URL validation of `ConnectionConfigService`
and `AddConnectionModal`, whose code is not among the sampled sources (only
the `allowedUrls` wiring in Connections.svelte lines 298-302 and the notice
on lines 410-416 are): "normalizes baseUrl (strips trailing slash), rejects
(error UrlNotAllowed) any URL not present in the configured allow-list when
the allow-list is non-empty".  The normalization reuses
`stripTrailingSlash`, which is in the sampled code. -/
def validateUrl (allowedUrls : List String) (url : String) : Except ConfigError String :=
  let normalized := stripTrailingSlash url
  if allowedUrls ≠ [] ∧ normalized ∉ allowedUrls then
    Except.error ConfigError.UrlNotAllowed
  else Except.ok normalized

/-- Modelled from the spec: a boundary edit request carries
`keyEditMode: keep|replace|clear` plus an optional `keyValue` (spec
section 6); here as the three flags of section 8's phrasing ("both
replace and clear set", "keep together with a non-empty keyValue") plus
the optional value. -/
structure KeyEdit where
  keep : Bool
  replace : Bool
  clear : Bool
  keyValue : Option String
deriving DecidableEq, Repr

/-- The resolved secret-handling mode of an edit. -/
inductive KeyAction where
  | keepStored
  | replaceWith (value : String)
  | clearKey
deriving DecidableEq, Repr

/-- Modelled from the spec: `ConnectionConfigService` "determines secret
handling mode from three mutually exclusive edit flags — keep stored key,
supply new key, clear key ... Exactly one of these three flags must be
resolvable per edit; ambiguous or conflicting edits fail with
InvalidKeyEdit", with section 8 adding that keep together with a non-empty
keyValue is rejected as ambiguous. -/
def resolveKeyEdit (e : KeyEdit) : Except ConfigError KeyAction :=
  match e.keep, e.replace, e.clear with
  | true, false, false =>
    if e.keyValue.getD "" = "" then Except.ok KeyAction.keepStored
    else Except.error ConfigError.InvalidKeyEdit
  | false, true, false => Except.ok (KeyAction.replaceWith (e.keyValue.getD ""))
  | false, false, true => Except.ok KeyAction.clearKey
  | _, _, _ => Except.error ConfigError.InvalidKeyEdit

/-- C4: an edit whose key-edit flags are ambiguous or conflicting — both
"replace" and "clear" set, or "keep" set together with a non-empty
keyValue — fails with `InvalidKeyEdit` instead of being resolved silently. -/
theorem resolveKeyEdit_ambiguous (e : KeyEdit)
    (h : (e.replace = true ∧ e.clear = true) ∨
      (e.keep = true ∧ e.keyValue.getD "" ≠ "")) :
    resolveKeyEdit e = Except.error ConfigError.InvalidKeyEdit := by
  obtain ⟨k, r, c, v⟩ := e
  rcases h with ⟨hr, hc⟩ | ⟨hk, hv⟩
  · subst hr
    subst hc
    cases k <;> rfl
  · subst hk
    cases r <;> cases c
    · show (if v.getD "" = "" then Except.ok KeyAction.keepStored
        else Except.error ConfigError.InvalidKeyEdit) = _
      rw [if_neg hv]
    · rfl
    · rfl
    · rfl

/-- C4 witness: an edit with both "replace" and "clear" set is rejected. -/
theorem resolveKeyEdit_ambiguous_witness :
    ((true : Bool) = true ∧ (true : Bool) = true) ∧
    resolveKeyEdit { keep := false, replace := true, clear := true, keyValue := none } =
      Except.error ConfigError.InvalidKeyEdit :=
  ⟨⟨rfl, rfl⟩, resolveKeyEdit_ambiguous _ (Or.inl ⟨rfl, rfl⟩)⟩

/-- C6: when the allow-list is non-empty, a connection whose (normalized)
base URL is not in the allow-list is rejected with `UrlNotAllowed`. -/
theorem validateUrl_rejects (allowedUrls : List String) (url : String)
    (hne : allowedUrls ≠ [])
    (h : stripTrailingSlash url ∉ allowedUrls) :
    validateUrl allowedUrls url = Except.error ConfigError.UrlNotAllowed := by
  unfold validateUrl
  dsimp only
  rw [if_pos ⟨hne, h⟩]

/-- C6 witness: with allow-list `["https://api.openai.com/v1"]`, adding the
URL `"https://evil.example.com"` fails with `UrlNotAllowed`. -/
theorem validateUrl_rejects_witness :
    (["https://api.openai.com/v1"] ≠ ([] : List String)) ∧
    stripTrailingSlash "https://evil.example.com" ∉ ["https://api.openai.com/v1"] ∧
    validateUrl ["https://api.openai.com/v1"] "https://evil.example.com" =
      Except.error ConfigError.UrlNotAllowed := by
  refine ⟨by decide, by decide, ?_⟩
  exact validateUrl_rejects _ _ (by decide) (by decide)

/-- C7: both update handlers normalize every base URL with
`stripTrailingSlash` before submitting, and a URL differing from an
allow-listed entry only by a trailing slash normalizes to that entry and
passes validation. -/
theorem trailingSlash_normalization (st : OpenAIState) (ost : OllamaState)
    (allowedUrls : List String) (u : String) (hmem : u ∈ allowedUrls) :
    (updateOpenAIRequest st).1.OPENAI_API_BASE_URLS =
      st.OPENAI_API_BASE_URLS.map stripTrailingSlash ∧
    (updateOllamaNormalize ost).OLLAMA_BASE_URLS =
      ost.OLLAMA_BASE_URLS.map stripTrailingSlash ∧
    stripTrailingSlash (u ++ "/") = u ∧
    validateUrl allowedUrls (u ++ "/") = Except.ok u := by
  have hstrip : stripTrailingSlash (u ++ "/") = u := by
    show String.mk (stripTrailingSlashChars (u ++ "/").data) = u
    have hdata : (u ++ "/").data = u.data ++ ['/'] := rfl
    rw [hdata]
    unfold stripTrailingSlashChars
    rw [if_pos (List.getLast?_concat _), List.dropLast_concat]
  refine ⟨rfl, rfl, hstrip, ?_⟩
  unfold validateUrl
  dsimp only
  rw [hstrip, if_neg (fun hc => hc.2 hmem)]

/-- C7 witness: `"https://api.openai.com/v1/"` normalizes to the allow-listed
`"https://api.openai.com/v1"` and is accepted. -/
theorem trailingSlash_normalization_witness :
    ("https://api.openai.com/v1" ∈ ["https://api.openai.com/v1"]) ∧
    stripTrailingSlash ("https://api.openai.com/v1" ++ "/") = "https://api.openai.com/v1" ∧
    validateUrl ["https://api.openai.com/v1"] ("https://api.openai.com/v1" ++ "/") =
      Except.ok "https://api.openai.com/v1" := by
  refine ⟨by decide, ?_, ?_⟩
  · exact (trailingSlash_normalization sampleOpenAIState sampleOllamaState
      ["https://api.openai.com/v1"] "https://api.openai.com/v1" (by decide)).2.2.1
  · exact (trailingSlash_normalization sampleOpenAIState sampleOllamaState
      ["https://api.openai.com/v1"] "https://api.openai.com/v1" (by decide)).2.2.2

end CryoTensor
